import Mathlib

/-!
Verification of the B2B binary-to-bitmap converter.

This file gives a shallow embedding of the program's core
(`src/header.rs` and the transform functions of `src/main.rs`) and proves or
refutes the behavioural claims of the specification against it.

Modelling conventions:
* Machine integers (`u16`, `u32`, `u64`, `u128`) are naturals; wrapping
  arithmetic is written out with explicit `% 2^w`, and the Rust `as` casts
  are explicit truncations (`% 2^32`) or saturations.
* The geometry computation of `Header::get_properties` is done by the Rust
  code in IEEE-754 binary32 ("f32") arithmetic.  We model binary32 values
  exactly: every f32 value arising in this program is either `0` or lies in
  a binade `[2^e, 2^(e+1))` with `0 ≤ e ≤ 64`, hence is an exact multiple
  of its unit in the last place `2^(e-23) ≥ 2^(-23)`.  We therefore encode
  an f32 value `v` as the natural number `v * 2^64` (`F32` below), which is
  exact for all values reaching the pipeline, and each arithmetic operation
  computes the exact rational result and applies one round-to-nearest,
  ties-to-even step onto the 24-bit-significand grid of the result's
  binade, exactly as IEEE-754 binary32 prescribes.  Subnormals, infinities
  and NaNs cannot arise in this range and are not modelled.
* Files are byte lists (`List ℕ`, entries < 256); the in-place file edits
  (`read`/`write_all`/`seek`/`set_len`) become the corresponding list
  operations; fallible operations return `Except ErrorKind`.
-/

set_option maxRecDepth 100000

namespace B2B

/-- `pub const BYTES_PER_PIXEL: u32 = 4`. -/
def BYTES_PER_PIXEL : ℕ := 4

/-- `pub const B2B_SIGNATURE: u128 = 0x6FAFEC0D7EF10C4468E85B0B9C0FB9E`. -/
def B2B_SIGNATURE : ℕ := 0x6FAFEC0D7EF10C4468E85B0B9C0FB9E

/-- `pub const BITMAP_HEADER_SIZE: u32 = 0x8A` (138). -/
def BITMAP_HEADER_SIZE : ℕ := 0x8A

/-- `pub const BITMAP_ID: u16 = 0x4D42`. -/
def BITMAP_ID : ℕ := 0x4D42

/-- `pub const B2B_HEADER_SIZE: u32 = 40`. -/
def B2B_HEADER_SIZE : ℕ := 40

/-! ### Exact model of IEEE-754 binary32 arithmetic on nonnegative values

An `F32` is a binary32 value `v` encoded as the natural `v * 2^64`.
All significands, exponent computations and comparisons below are exact
integer arithmetic; each operation performs exactly one correctly-rounded
(round to nearest, ties to even) step, as IEEE-754 requires. -/

/-- A nonnegative binary32 value `v`, encoded exactly as `v * 2^64`. -/
abbrev F32 := ℕ

/-- Encode the exact integer `n` (e.g. a Rust integer about to be converted
with `as f32`) as a fixed-point value; the conversion's rounding step is
`roundF32` applied on top. -/
def toF32 (n : ℕ) : F32 := n * 2 ^ 64

/-- Fuel-driven `⌊log2 n⌋` (`0` for `n ≤ 1`); structural recursion so that
the kernel can evaluate it. -/
def log2floor : ℕ → ℕ → ℕ
  | 0, _ => 0
  | fuel + 1, n => if 2 ≤ n then log2floor fuel (n / 2) + 1 else 0

/-- Round the exact rational `a / b` to the nearest natural, ties to even. -/
def rneDiv (a b : ℕ) : ℕ :=
  let q := a / b
  let r := a % b
  if 2 * r < b then q
  else if b < 2 * r then q + 1
  else if q % 2 = 0 then q else q + 1

/-- Bit-by-bit integer square root: `isqrtAux n b r` refines candidate `r`
downwards from bit `b`; structural recursion on the bit counter. -/
def isqrtAux (n : ℕ) : ℕ → ℕ → ℕ
  | 0, r => r
  | b + 1, r =>
    let r' := r + 2 ^ b
    if r' * r' ≤ n then isqrtAux n b r' else isqrtAux n b r

/-- `⌊√n⌋` for `n < 2^140`. -/
def isqrt (n : ℕ) : ℕ := isqrtAux n 70 0

/-- Binade exponent `⌊log2 v⌋` of an `F32` encoding a value `v ≥ 1`. -/
def expF32 (a : F32) : ℕ := log2floor 300 (a / 2 ^ 64)

/-- Round the exact value `a / 2^64` onto the binary32 grid (nearest, ties
to even).  For a value `v` with `2^e ≤ v < 2^(e+1)` the grid step is
`ulp = 2^(e-23)`, so the rounded significand is `rne (v / ulp) =
rneDiv (a * 2^23) (2^(64+e))` and the result re-encodes as
`m * ulp * 2^64 = m * 2^(41+e)`.  A result that carries into the next
binade is still exact.  Assumes the value is `0` or `≥ 1` (true of every
value in this program). -/
def roundF32 (a : F32) : F32 :=
  if a = 0 then 0
  else
    let e := expF32 a
    rneDiv (a * 2 ^ 23) (2 ^ (64 + e)) * 2 ^ (41 + e)

/-- binary32 addition: the sum of two fixed-point encodings is exact, then
one rounding step. -/
def addF32 (a b : F32) : F32 := roundF32 (a + b)

/-- binary32 multiplication of values `a / 2^64` and `b / 2^64`: the exact
product is `a*b / 2^128`, its binade is `e`, and the rounded significand is
`rne (product / ulp) = rneDiv (a*b) (2^(105+e))`. -/
def mulF32 (a b : F32) : F32 :=
  if a * b = 0 then 0
  else
    let e := log2floor 300 (a * b / 2 ^ 128)
    rneDiv (a * b) (2 ^ (105 + e)) * 2 ^ (41 + e)

/-- binary32 division of values `a / 2^64` and `b / 2^64`: the exact
quotient is `a / b`, its binade is `e`, and the rounded significand is
`rne (quotient / ulp) = rneDiv (a * 2^23) (b * 2^e)`.  Assumes a quotient
`≥ 1` (true of every division in this program). -/
def divF32 (a b : F32) : F32 :=
  if a = 0 then 0
  else
    let e := log2floor 300 (a / b)
    rneDiv (a * 2 ^ 23) (b * 2 ^ e) * 2 ^ (41 + e)

/-- binary32 square root of the value `v = a / 2^64`: the result's binade
is `E = ⌊(log2 v) / 2⌋` with grid step `ulp = 2^(E-23)`; the rounded
significand is `rne (√v / ulp) = rne √(v / ulp^2)` with
`v / ulp^2 = a / 2^(18+2E)`.  Its floor is `isqrt (a / 2^(18+2E))`, and
`√y` compares with the halfway point `f + 1/2` as `4y` with `(2f+1)^2`,
i.e. `a` with `(2f+1)^2 * 2^(16+2E)` — all exact. -/
def sqrtF32 (a : F32) : F32 :=
  if a = 0 then 0
  else
    let e := expF32 a
    let E := e / 2
    let f := isqrt (a / 2 ^ (18 + 2 * E))
    let m :=
      if a < (2 * f + 1) ^ 2 * 2 ^ (16 + 2 * E) then f
      else if (2 * f + 1) ^ 2 * 2 ^ (16 + 2 * E) < a then f + 1
      else if f % 2 = 0 then f else f + 1
    m * 2 ^ (41 + E)

/-- `f32::ceil`: exact on binary32 values (any binary32 with a fractional
part is below `2^23`, so its ceiling is exactly representable). -/
def ceilF32 (a : F32) : F32 := (a + 2 ^ 64 - 1) / 2 ^ 64 * 2 ^ 64

/-- Rust `as u32` on an f32: truncation toward zero, saturating at the type
bounds (the argument is never negative or NaN here). -/
def castU32 (a : F32) : ℕ := min (a / 2 ^ 64) (2 ^ 32 - 1)

/-- `u32` wrapping subtraction (release-mode semantics of Rust `-`; a debug
build would panic on the underflow instead of wrapping). -/
def wsub (a b : ℕ) : ℕ := (a + 2 ^ 32 - b % 2 ^ 32) % 2 ^ 32

/-! ### The geometry computation (`Header::get_properties`) -/

/-- `Header::get_properties(file_size) -> (width, height, pixmap_size,
padding_size)`, lines 203-216 of `src/header.rs`:

```
let total_data_size = file_size as f32 + Self::b2b_header_size() as f32;
let width  = (total_data_size / Self::bytes_per_pixel() as f32).sqrt().ceil() as u32;
let height = (total_data_size / (width as f32 * Self::bytes_per_pixel() as f32)).ceil() as u32;
let pixmap_size  = width * height * Self::bytes_per_pixel();
let padding_size = pixmap_size - file_size as u32 - Self::b2b_header_size();
```

All four outputs are `u32`; the product and the two subtractions wrap. -/
def get_properties (file_size : ℕ) : ℕ × ℕ × ℕ × ℕ :=
  let total_data_size := addF32 (roundF32 (toF32 file_size)) (roundF32 (toF32 B2B_HEADER_SIZE))
  let width := castU32 (ceilF32 (sqrtF32 (divF32 total_data_size (roundF32 (toF32 BYTES_PER_PIXEL)))))
  let height := castU32 (ceilF32 (divF32 total_data_size (mulF32 (roundF32 (toF32 width)) (roundF32 (toF32 BYTES_PER_PIXEL)))))
  let pixmap_size := width * height * BYTES_PER_PIXEL % 2 ^ 32
  let padding_size := wsub (wsub pixmap_size (file_size % 2 ^ 32)) B2B_HEADER_SIZE
  (width, height, pixmap_size, padding_size)

/-- Width component of `get_properties`. -/
def widthOf (file_size : ℕ) : ℕ := (get_properties file_size).1

/-- Height component of `get_properties`. -/
def heightOf (file_size : ℕ) : ℕ := (get_properties file_size).2.1

/-- Pixmap-size component of `get_properties`. -/
def pixmapOf (file_size : ℕ) : ℕ := (get_properties file_size).2.2.1

/-- Padding-size component of `get_properties`. -/
def paddingOf (file_size : ℕ) : ℕ := (get_properties file_size).2.2.2

/-! ### Error kinds (`src/error.rs`)

The `Error` struct wraps an `ErrorKind` plus a boxed message we do not
model; the `IOError`/`BincodeError` payloads are likewise dropped. -/

/-- The five error kinds of `src/error.rs`. -/
inductive ErrorKind where
  | IOError
  | BincodeError
  | InvalidBitmapID
  | InvalidB2BSignature
  | BadPaddingSize
deriving DecidableEq

instance {ε α : Type} [DecidableEq ε] [DecidableEq α] : DecidableEq (Except ε α) :=
  fun x y =>
    match x, y with
    | .error a, .error b =>
      match decEq a b with
      | isTrue h => isTrue (h ▸ rfl)
      | isFalse h => isFalse fun c => h (Except.error.inj c)
    | .ok a, .ok b =>
      match decEq a b with
      | isTrue h => isTrue (h ▸ rfl)
      | isFalse h => isFalse fun c => h (Except.ok.inj c)
    | .error _, .ok _ => isFalse fun c => Except.noConfusion c
    | .ok _, .error _ => isFalse fun c => Except.noConfusion c

/-! ### The header records (`src/header.rs`) -/

/-- `struct BitmapV5Header` — all thirty fields, in declaration order.
`u16` fields: `id`, `pbnlanes`, `bpp`; `u128` fields: `unused2a`,
`unused2b`; the rest are `u32`. -/
structure BitmapV5Header where
  id : ℕ
  file_size : ℕ
  unused1 : ℕ
  offset : ℕ
  dib_size : ℕ
  width : ℕ
  height : ℕ
  pbnlanes : ℕ
  bpp : ℕ
  compression : ℕ
  pixmap_size : ℕ
  horizontal : ℕ
  vertical : ℕ
  palette : ℕ
  important : ℕ
  red_mask : ℕ
  green_mask : ℕ
  blue_mask : ℕ
  alpha_mask : ℕ
  win : ℕ
  unused2a : ℕ
  unused2b : ℕ
  unused2c : ℕ
  red_gamma : ℕ
  green_gamma : ℕ
  blue_gamma : ℕ
  intent : ℕ
  profile_data : ℕ
  profile_size : ℕ
  reserved : ℕ
deriving DecidableEq

/-- `BitmapV5Header::new(width, height, pixmap_size)`.  The `file_size`
field is the `u32` sum `pixmap_size + BITMAP_HEADER_SIZE` (wrapping);
`bpp` is `BYTES_PER_PIXEL as u16 * 8 = 32`. -/
def BitmapV5Header.new (width height pixmap_size : ℕ) : BitmapV5Header where
  id := BITMAP_ID
  file_size := (pixmap_size + BITMAP_HEADER_SIZE) % 2 ^ 32
  unused1 := 0
  offset := BITMAP_HEADER_SIZE
  dib_size := BITMAP_HEADER_SIZE - 14
  width := width
  height := height
  pbnlanes := 1
  bpp := BYTES_PER_PIXEL * 8
  compression := 3
  pixmap_size := pixmap_size
  horizontal := 4000
  vertical := 4000
  palette := 0
  important := 0
  red_mask := 0xFF0000
  green_mask := 0xFF00
  blue_mask := 0xFF
  alpha_mask := 0xFF000000
  win := 0x57696E20
  unused2a := 0
  unused2b := 0
  unused2c := 0
  red_gamma := 0
  green_gamma := 0
  blue_gamma := 0
  intent := 0
  profile_data := 0
  profile_size := 0
  reserved := 0

/-- `struct CompactOptionalDigest(u128)`: if the most significant bit of
the `u128` is set, the other 127 bits are the digest; if it is 0, there is
no digest. -/
structure CompactOptionalDigest where
  val : ℕ
deriving DecidableEq

/-- Bitwise complement on `u128`: `!x = 2^128 - 1 - x` for `x < 2^128`. -/
def not128 (x : ℕ) : ℕ := 2 ^ 128 - 1 - x

/-- `CompactOptionalDigest::new`: `None` encodes as `0`, `Some(num)` as
`num | (1 << 127)`.  (`num` is a `u128`, i.e. a natural below `2^128`.) -/
def CompactOptionalDigest.new (optional_digest : Option ℕ) : CompactOptionalDigest :=
  ⟨match optional_digest with
    | none => 0
    | some num => num ||| (1 <<< 127)⟩

/-- `CompactOptionalDigest::get`: present iff `self.0 & (1 << 127) != 0`,
and the payload is `self.0 & !(1 << 127)`. -/
def CompactOptionalDigest.get (s : CompactOptionalDigest) : Option ℕ :=
  if s.val &&& (1 <<< 127) ≠ 0 then some (s.val &&& not128 (1 <<< 127)) else none

/-- `CompactOptionalDigest::compare`: the source computes
`self.get().unwrap() == (other & !(1u128 << 127))`.  The unconditional
`unwrap` panics when the digest is absent; we model the partiality with
`Option.map`, so `none` here is exactly the panic. -/
def CompactOptionalDigest.compare (s : CompactOptionalDigest) (other : ℕ) : Option Bool :=
  s.get.map fun p => p == other &&& not128 (1 <<< 127)

/-- `struct B2BHeader`. -/
structure B2BHeader where
  padding_size : ℕ
  original_file_size : ℕ
  signature : ℕ
  od : CompactOptionalDigest
deriving DecidableEq

/-- `B2BHeader::new(padding_size, file_size, optional_digest)`:
`original_file_size` is `file_size as u32`, a plain truncating cast. -/
def B2BHeader.new (padding_size : ℕ) (file_size : ℕ) (optional_digest : Option ℕ) : B2BHeader where
  padding_size := padding_size
  original_file_size := file_size % 2 ^ 32
  signature := B2B_SIGNATURE
  od := CompactOptionalDigest.new optional_digest

/-- `struct Header { bmp, b2b }`. -/
structure Header where
  bmp : BitmapV5Header
  b2b : B2BHeader
deriving DecidableEq

/-- `Header::total_header_size() = 138 + 40 = 178`. -/
def total_header_size : ℕ := BITMAP_HEADER_SIZE + B2B_HEADER_SIZE

/-- `Header::new(file_size, optional_digest)`: destructure
`get_properties(file_size)` into `(width, height, pixmap_size,
padding_size)` — here the four component accessors — then build both
sub-records. -/
def Header.new (file_size : ℕ) (optional_digest : Option ℕ) : Header :=
  ⟨BitmapV5Header.new (widthOf file_size) (heightOf file_size) (pixmapOf file_size),
   B2BHeader.new (paddingOf file_size) file_size optional_digest⟩

/-- `Header::pixmap_size`. -/
def Header.pixmap_size (h : Header) : ℕ := h.bmp.pixmap_size

/-- `Header::padding_size`. -/
def Header.padding_size (h : Header) : ℕ := h.b2b.padding_size

/-- `Header::original_file_size`. -/
def Header.original_file_size (h : Header) : ℕ := h.b2b.original_file_size

/-- `Header::check_signature`. -/
def Header.check_signature (h : Header) : Except ErrorKind Unit :=
  if h.b2b.signature ≠ B2B_SIGNATURE then .error .InvalidB2BSignature else .ok ()

/-- `Header::check_id`. -/
def Header.check_id (h : Header) : Except ErrorKind Unit :=
  if h.bmp.id ≠ BITMAP_ID then .error .InvalidBitmapID else .ok ()

/-- `Header::check_padding_size`. -/
def Header.check_padding_size (h : Header) : Except ErrorKind Unit :=
  if h.padding_size ≥ h.pixmap_size then .error .BadPaddingSize else .ok ()

/-- The validation sequence run by `bmp_to_bin` (lines 104-108 of
`src/main.rs`): `check_id()?`, then `check_padding_size()?`, then
`check_signature()?`, each `?` aborting on the first failure. -/
def Header.validate (h : Header) : Except ErrorKind Unit := do
  h.check_id
  h.check_padding_size
  h.check_signature

/-- `Header::verify(other_digest) -> (verified, error)`: absent digest
gives `(false, true)` ("verification not possible"); present digest
compares the payloads.  The result is `Option`al only because
`CompactOptionalDigest::compare` would panic on an absent digest (see
`CompactOptionalDigest.compare`); `verify` establishes presence first. -/
def Header.verify (h : Header) (other_digest : ℕ) : Option (Bool × Bool) :=
  match h.b2b.od.get with
  | none => some (false, true)
  | some _ => (h.b2b.od.compare other_digest).map fun b => (b, false)

/-! ### Bincode serialization of the header

`bincode::serialize_into`/`deserialize_from` with default options write the
struct fields in declaration order as fixed-width little-endian integers
(no tags, no lengths): 2 bytes per `u16`, 4 per `u32`, 16 per `u128`.
`BitmapV5Header` is 138 bytes and `B2BHeader` 40 bytes, so the combined
`Header` is exactly `total_header_size = 178` bytes.  Deserialization of a
fixed-size struct fails exactly when fewer bytes are available
(`BincodeError`). -/

/-- Little-endian bytes of a `u16`. -/
def u16LE (n : ℕ) : List ℕ := [n % 2 ^ 8, n / 2 ^ 8 % 2 ^ 8]

/-- Little-endian bytes of a `u32`. -/
def u32LE (n : ℕ) : List ℕ :=
  [n % 2 ^ 8, n / 2 ^ 8 % 2 ^ 8, n / 2 ^ 16 % 2 ^ 8, n / 2 ^ 24 % 2 ^ 8]

/-- Little-endian bytes of a `u128` (byte `i` is `n / 2^(8i) mod 2^8`). -/
def u128LE (n : ℕ) : List ℕ :=
  [n % 2 ^ 8, n / 2 ^ 8 % 2 ^ 8, n / 2 ^ 16 % 2 ^ 8, n / 2 ^ 24 % 2 ^ 8,
   n / 2 ^ 32 % 2 ^ 8, n / 2 ^ 40 % 2 ^ 8, n / 2 ^ 48 % 2 ^ 8, n / 2 ^ 56 % 2 ^ 8,
   n / 2 ^ 64 % 2 ^ 8, n / 2 ^ 72 % 2 ^ 8, n / 2 ^ 80 % 2 ^ 8, n / 2 ^ 88 % 2 ^ 8,
   n / 2 ^ 96 % 2 ^ 8, n / 2 ^ 104 % 2 ^ 8, n / 2 ^ 112 % 2 ^ 8, n / 2 ^ 120 % 2 ^ 8]

/-- Serialize a `BitmapV5Header` (138 bytes). -/
def BitmapV5Header.serialize (h : BitmapV5Header) : List ℕ :=
  u16LE h.id ++ u32LE h.file_size ++ u32LE h.unused1 ++ u32LE h.offset ++
  u32LE h.dib_size ++ u32LE h.width ++ u32LE h.height ++ u16LE h.pbnlanes ++
  u16LE h.bpp ++ u32LE h.compression ++ u32LE h.pixmap_size ++
  u32LE h.horizontal ++ u32LE h.vertical ++ u32LE h.palette ++
  u32LE h.important ++ u32LE h.red_mask ++ u32LE h.green_mask ++
  u32LE h.blue_mask ++ u32LE h.alpha_mask ++ u32LE h.win ++
  u128LE h.unused2a ++ u128LE h.unused2b ++ u32LE h.unused2c ++
  u32LE h.red_gamma ++ u32LE h.green_gamma ++ u32LE h.blue_gamma ++
  u32LE h.intent ++ u32LE h.profile_data ++ u32LE h.profile_size ++
  u32LE h.reserved

/-- Serialize a `B2BHeader` (40 bytes). -/
def B2BHeader.serialize (b : B2BHeader) : List ℕ :=
  u32LE b.padding_size ++ u32LE b.original_file_size ++
  u128LE b.signature ++ u128LE b.od.val

/-- Serialize a `Header` (178 bytes). -/
def Header.serialize (h : Header) : List ℕ := h.bmp.serialize ++ h.b2b.serialize

/-- Byte `i` of a byte list (reads past the end yield `0`; only used under
an explicit length guard, matching bincode's end-of-input error). -/
def readByte (l : List ℕ) (i : ℕ) : ℕ := l.getD i 0

/-- Read a little-endian `u16` at offset `off`. -/
def readU16 (l : List ℕ) (off : ℕ) : ℕ := readByte l off + 2 ^ 8 * readByte l (off + 1)

/-- Read a little-endian `u32` at offset `off`. -/
def readU32 (l : List ℕ) (off : ℕ) : ℕ :=
  readByte l off + 2 ^ 8 * readByte l (off + 1) + 2 ^ 16 * readByte l (off + 2) +
    2 ^ 24 * readByte l (off + 3)

/-- Read a little-endian `u128` at offset `off`. -/
def readU128 (l : List ℕ) (off : ℕ) : ℕ :=
  readByte l off + 2 ^ 8 * readByte l (off + 1) + 2 ^ 16 * readByte l (off + 2) +
    2 ^ 24 * readByte l (off + 3) + 2 ^ 32 * readByte l (off + 4) +
    2 ^ 40 * readByte l (off + 5) + 2 ^ 48 * readByte l (off + 6) +
    2 ^ 56 * readByte l (off + 7) + 2 ^ 64 * readByte l (off + 8) +
    2 ^ 72 * readByte l (off + 9) + 2 ^ 80 * readByte l (off + 10) +
    2 ^ 88 * readByte l (off + 11) + 2 ^ 96 * readByte l (off + 12) +
    2 ^ 104 * readByte l (off + 13) + 2 ^ 112 * readByte l (off + 14) +
    2 ^ 120 * readByte l (off + 15)

/-- The field reads of `bincode::deserialize_from` for `Header` (offsets
follow the fixed layout above). -/
def Header.read_fields (l : List ℕ) : Header :=
    { bmp :=
      { id := readU16 l 0
        file_size := readU32 l 2
        unused1 := readU32 l 6
        offset := readU32 l 10
        dib_size := readU32 l 14
        width := readU32 l 18
        height := readU32 l 22
        pbnlanes := readU16 l 26
        bpp := readU16 l 28
        compression := readU32 l 30
        pixmap_size := readU32 l 34
        horizontal := readU32 l 38
        vertical := readU32 l 42
        palette := readU32 l 46
        important := readU32 l 50
        red_mask := readU32 l 54
        green_mask := readU32 l 58
        blue_mask := readU32 l 62
        alpha_mask := readU32 l 66
        win := readU32 l 70
        unused2a := readU128 l 74
        unused2b := readU128 l 90
        unused2c := readU32 l 106
        red_gamma := readU32 l 110
        green_gamma := readU32 l 114
        blue_gamma := readU32 l 118
        intent := readU32 l 122
        profile_data := readU32 l 126
        profile_size := readU32 l 130
        reserved := readU32 l 134 }
      b2b :=
      { padding_size := readU32 l 138
        original_file_size := readU32 l 142
        signature := readU128 l 146
        od := ⟨readU128 l 162⟩ } }

/-- `bincode::deserialize_from` for `Header`: reads the 178 header bytes,
failing if the input is shorter. -/
def Header.deserialize (l : List ℕ) : Except ErrorKind Header :=
  if l.length < total_header_size then .error .BincodeError
  else .ok (Header.read_fields l)

/-! ### The transform engine (`src/main.rs`) -/

/-- `File::set_len(n)`: truncate to `n` bytes, or zero-extend up to `n`. -/
def resize (l : List ℕ) (n : ℕ) : List ℕ := l.take n ++ List.replicate (n - l.length) 0

/-- Lines 63-65 of `src/main.rs`: if the file is smaller than the combined
bmp and b2b headers (178 bytes), zero-extend it to exactly that size. -/
def extendSmall (f : List ℕ) : List ℕ :=
  if f.length < total_header_size then resize f total_header_size else f

/-- `bin_to_bmp` (lines 42-92 of `src/main.rs`), as a pure function from
the file contents to the new contents.  The digest, when requested, is
computed (by the external Blake-256 hash) before any mutation; here it is
the `od` parameter.  Steps: build the header from the original length,
zero-extend short files to 178 bytes, copy the first 178 bytes, append
that copy at the end, overwrite the first 178 bytes with the serialized
header, and `set_len` to the `u32` sum `pixmap_size + BITMAP_HEADER_SIZE`. -/
def bin_to_bmp (f : List ℕ) (od : Option ℕ) : List ℕ :=
  let file_size := f.length
  let header := Header.new file_size od
  let data := extendSmall f
  let buffer := data.take total_header_size
  let data2 := data ++ buffer
  let data3 := header.serialize ++ data2.drop total_header_size
  resize data3 ((header.pixmap_size + BITMAP_HEADER_SIZE) % 2 ^ 32)

/-- `bmp_to_bin` (lines 94-154 of `src/main.rs`), as a pure function from
the file contents to the restored contents.  Steps: deserialize the
header, run the three validation checks, seek to
`End(-total_header_size - padding_size)` (an `IOError` if that is before
the start of the file), read up to 178 bytes there (the stack buffer is
zero-initialized, so a short read leaves trailing zeros), overwrite the
start of the file with that buffer, and truncate to `original_file_size`.
The digest verification step is separate (`Header.verify`) and does not
affect the restored bytes. -/
def bmp_to_bin (l : List ℕ) : Except ErrorKind (List ℕ) := do
  let header ← Header.deserialize l
  header.check_id
  header.check_padding_size
  header.check_signature
  let pos : ℤ := (l.length : ℤ) - (total_header_size : ℤ) - (header.padding_size : ℤ)
  if pos < 0 then throw .IOError
  else
    let raw := (l.drop pos.toNat).take total_header_size
    let buffer := raw ++ List.replicate (total_header_size - raw.length) 0
    let relocated := buffer ++ l.drop total_header_size
    return resize relocated header.original_file_size

/-- The five bytes of `b"hello"`. -/
def hello : List ℕ := [0x68, 0x65, 0x6C, 0x6C, 0x6F]

/-! ## Supporting lemmas -/

theorem get_properties_eta (fs : ℕ) :
    get_properties fs = (widthOf fs, heightOf fs, pixmapOf fs, paddingOf fs) := rfl

theorem pixmapOf_def (fs : ℕ) :
    pixmapOf fs = widthOf fs * heightOf fs * BYTES_PER_PIXEL % 2 ^ 32 := rfl

theorem paddingOf_def (fs : ℕ) :
    paddingOf fs = wsub (wsub (pixmapOf fs) (fs % 2 ^ 32)) B2B_HEADER_SIZE := rfl

theorem pixmapOf_lt (fs : ℕ) : pixmapOf fs < 2 ^ 32 := by
  rw [pixmapOf_def]
  exact Nat.mod_lt _ (by norm_num)

theorem Header.new_bmp (fs : ℕ) (od : Option ℕ) :
    (Header.new fs od).bmp = BitmapV5Header.new (widthOf fs) (heightOf fs) (pixmapOf fs) := by
  rw [Header.new]

theorem Header.new_b2b (fs : ℕ) (od : Option ℕ) :
    (Header.new fs od).b2b = B2BHeader.new (paddingOf fs) fs od := by
  rw [Header.new]

theorem Header.new_pixmap_size (fs : ℕ) (od : Option ℕ) :
    Header.pixmap_size (Header.new fs od) = pixmapOf fs := by
  rw [Header.pixmap_size, Header.new]
  rfl

theorem Header.new_padding_size (fs : ℕ) (od : Option ℕ) :
    Header.padding_size (Header.new fs od) = paddingOf fs := by
  rw [Header.padding_size, Header.new]
  rfl

theorem Header.new_original_file_size (fs : ℕ) (od : Option ℕ) :
    Header.original_file_size (Header.new fs od) = fs % 2 ^ 32 := by
  rw [Header.original_file_size, Header.new, B2BHeader.new]

theorem u16LE_length (n : ℕ) : (u16LE n).length = 2 := rfl

theorem u32LE_length (n : ℕ) : (u32LE n).length = 4 := rfl

theorem u128LE_length (n : ℕ) : (u128LE n).length = 16 := rfl

theorem Header.serialize_length (h : Header) : h.serialize.length = total_header_size := by
  simp [Header.serialize, BitmapV5Header.serialize, B2BHeader.serialize,
    u16LE, u32LE, u128LE, total_header_size, BITMAP_HEADER_SIZE, B2B_HEADER_SIZE]

theorem resize_length (l : List ℕ) (n : ℕ) : (resize l n).length = n := by
  simp [resize]
  omega

theorem extendSmall_spec (f : List ℕ) (hf : f.length < total_header_size) :
    extendSmall f = f ++ List.replicate (total_header_size - f.length) 0 ∧
    (extendSmall f).length = total_header_size := by
  constructor
  · rw [extendSmall, if_pos hf, resize, List.take_of_length_le (by omega)]
  · rw [extendSmall, if_pos hf, resize_length]

theorem bin_to_bmp_length (f : List ℕ) (od : Option ℕ) :
    (bin_to_bmp f od).length = (pixmapOf f.length + BITMAP_HEADER_SIZE) % 2 ^ 32 := by
  rw [bin_to_bmp, resize_length, Header.new_pixmap_size]

theorem wsub_of_le (a b : ℕ) (hba : b ≤ a) (ha : a < 2 ^ 32) : wsub a b = a - b := by
  rw [wsub, Nat.mod_eq_of_lt (show b < 2 ^ 32 by omega),
    show a + 2 ^ 32 - b = a - b + 2 ^ 32 by omega, Nat.add_mod_right,
    Nat.mod_eq_of_lt (by omega)]

theorem not128_two_pow_127 : not128 (2 ^ 127) = 2 ^ 127 - 1 := by
  rw [not128, show (2 : ℕ) ^ 128 = 2 ^ 127 * 2 from by ring]
  omega

theorem lor_two_pow_127_mod (d : ℕ) : (d ||| 2 ^ 127) % 2 ^ 127 = d % 2 ^ 127 := by
  apply Nat.eq_of_testBit_eq
  intro i
  simp only [Nat.testBit_mod_two_pow, Nat.testBit_or, Nat.testBit_two_pow]
  by_cases hi : i < 127
  · simp [hi, show ¬ (127 = i) by omega]
  · simp [hi]

theorem cod_get_new_none : (CompactOptionalDigest.new none).get = none := by decide

theorem cod_new_some_val (d : ℕ) :
    (CompactOptionalDigest.new (some d)).val = d ||| 2 ^ 127 := by
  rw [CompactOptionalDigest.new, Nat.one_shiftLeft]

theorem cod_new_some_testBit (d : ℕ) :
    (CompactOptionalDigest.new (some d)).val.testBit 127 = true := by
  rw [cod_new_some_val, Nat.testBit_or, Nat.testBit_two_pow_self, Bool.or_true]

theorem cod_get_new_some (d : ℕ) :
    (CompactOptionalDigest.new (some d)).get = some (d % 2 ^ 127) := by
  have hbit : (d ||| 2 ^ 127).testBit 127 = true := by
    rw [Nat.testBit_or, Nat.testBit_two_pow_self, Bool.or_true]
  have hne : (d ||| 2 ^ 127) &&& 2 ^ 127 ≠ 0 := by
    rw [Nat.and_two_pow, hbit]
    simp
  rw [CompactOptionalDigest.get, cod_new_some_val, Nat.one_shiftLeft, if_pos hne,
    not128_two_pow_127, Nat.and_pow_two_sub_one_eq_mod, lor_two_pow_127_mod]

theorem and_not128_eq_mod (d : ℕ) : d &&& not128 (1 <<< 127) = d % 2 ^ 127 := by
  rw [Nat.one_shiftLeft, not128_two_pow_127, Nat.and_pow_two_sub_one_eq_mod]

theorem bmp_to_bin_check_failure (l : List ℕ) (h : Header) (e : ErrorKind)
    (hd : Header.deserialize l = .ok h) (hv : Header.validate h = .error e) :
    bmp_to_bin l = .error e := by
  cases c1 : h.check_id <;> cases c2 : h.check_padding_size <;>
    cases c3 : h.check_signature <;>
      simp_all [bmp_to_bin, Header.validate, Bind.bind, Except.bind]

theorem round_trip_of_length_zero : bmp_to_bin (bin_to_bmp [] none) = .ok [] := by decide

theorem round_trip_of_length_200 :
    bmp_to_bin (bin_to_bmp (List.replicate 200 7) none) = .ok (List.replicate 200 7) := by
  decide

theorem paddingOf_lt (fs : ℕ) : paddingOf fs < 2 ^ 32 := by
  rw [paddingOf_def, wsub]
  exact Nat.mod_lt _ (by norm_num)

theorem paddingOf_eq_of_no_underflow (fs : ℕ) (hno : fs % 2 ^ 32 + 40 ≤ pixmapOf fs) :
    paddingOf fs = pixmapOf fs - fs % 2 ^ 32 - 40 := by
  rw [paddingOf_def, show B2B_HEADER_SIZE = 40 from rfl]
  have hlt := pixmapOf_lt fs
  rw [wsub_of_le _ _ (by omega) hlt, wsub_of_le _ _ (by omega) (by omega)]

theorem BitmapV5Header.serialize_len (hb : BitmapV5Header) :
    hb.serialize.length = 138 := by
  simp [BitmapV5Header.serialize, u16LE, u32LE, u128LE]

/-! ### Reading back serialized fields -/

theorem readU16_ge (A B : List ℕ) (i : ℕ) (h : A.length ≤ i) :
    readU16 (A ++ B) i = readU16 B (i - A.length) := by
  unfold readU16 readByte
  rw [List.getD_append_right _ _ _ _ h, List.getD_append_right _ _ _ _ (by omega),
    show i + 1 - A.length = i - A.length + 1 from by omega]

theorem readU32_ge (A B : List ℕ) (i : ℕ) (h : A.length ≤ i) :
    readU32 (A ++ B) i = readU32 B (i - A.length) := by
  unfold readU32 readByte
  rw [List.getD_append_right _ _ _ _ h, List.getD_append_right _ _ _ _ (by omega),
    List.getD_append_right _ _ _ _ (by omega), List.getD_append_right _ _ _ _ (by omega),
    show i + 1 - A.length = i - A.length + 1 from by omega,
    show i + 2 - A.length = i - A.length + 2 from by omega,
    show i + 3 - A.length = i - A.length + 3 from by omega]

theorem readU128_ge (A B : List ℕ) (i : ℕ) (h : A.length ≤ i) :
    readU128 (A ++ B) i = readU128 B (i - A.length) := by
  unfold readU128 readByte
  rw [List.getD_append_right _ _ _ _ h, List.getD_append_right _ _ _ _ (by omega),
    List.getD_append_right _ _ _ _ (by omega), List.getD_append_right _ _ _ _ (by omega),
    List.getD_append_right _ _ _ _ (by omega), List.getD_append_right _ _ _ _ (by omega),
    List.getD_append_right _ _ _ _ (by omega), List.getD_append_right _ _ _ _ (by omega),
    List.getD_append_right _ _ _ _ (by omega), List.getD_append_right _ _ _ _ (by omega),
    List.getD_append_right _ _ _ _ (by omega), List.getD_append_right _ _ _ _ (by omega),
    List.getD_append_right _ _ _ _ (by omega), List.getD_append_right _ _ _ _ (by omega),
    List.getD_append_right _ _ _ _ (by omega), List.getD_append_right _ _ _ _ (by omega),
    show i + 1 - A.length = i - A.length + 1 from by omega,
    show i + 2 - A.length = i - A.length + 2 from by omega,
    show i + 3 - A.length = i - A.length + 3 from by omega,
    show i + 4 - A.length = i - A.length + 4 from by omega,
    show i + 5 - A.length = i - A.length + 5 from by omega,
    show i + 6 - A.length = i - A.length + 6 from by omega,
    show i + 7 - A.length = i - A.length + 7 from by omega,
    show i + 8 - A.length = i - A.length + 8 from by omega,
    show i + 9 - A.length = i - A.length + 9 from by omega,
    show i + 10 - A.length = i - A.length + 10 from by omega,
    show i + 11 - A.length = i - A.length + 11 from by omega,
    show i + 12 - A.length = i - A.length + 12 from by omega,
    show i + 13 - A.length = i - A.length + 13 from by omega,
    show i + 14 - A.length = i - A.length + 14 from by omega,
    show i + 15 - A.length = i - A.length + 15 from by omega]

theorem readU16_u16LE (n : ℕ) (B : List ℕ) : readU16 (u16LE n ++ B) 0 = n % 2 ^ 16 := by
  simp [readU16, u16LE, readByte]
  omega

theorem readU32_u32LE (n : ℕ) (B : List ℕ) : readU32 (u32LE n ++ B) 0 = n % 2 ^ 32 := by
  simp [readU32, u32LE, readByte]
  omega

theorem readU128_u128LE (n : ℕ) (B : List ℕ) : readU128 (u128LE n ++ B) 0 = n % 2 ^ 128 := by
  simp [readU128, u128LE, readByte]
  omega

theorem read_fields_serialize (h : Header) (rest : List ℕ) :
    (Header.read_fields (h.serialize ++ rest)).bmp.id = h.bmp.id % 2 ^ 16 ∧
    (Header.read_fields (h.serialize ++ rest)).bmp.pixmap_size = h.bmp.pixmap_size % 2 ^ 32 ∧
    (Header.read_fields (h.serialize ++ rest)).b2b.padding_size = h.b2b.padding_size % 2 ^ 32 ∧
    (Header.read_fields (h.serialize ++ rest)).b2b.original_file_size =
      h.b2b.original_file_size % 2 ^ 32 ∧
    (Header.read_fields (h.serialize ++ rest)).b2b.signature = h.b2b.signature % 2 ^ 128 := by
  simp only [Header.read_fields, Header.serialize, BitmapV5Header.serialize,
    B2BHeader.serialize, List.append_assoc, readU16_ge, readU32_ge, readU128_ge,
    u16LE_length, u32LE_length, u128LE_length, readU16_u16LE, readU32_u32LE,
    readU128_u128LE, Nat.reduceLeDiff, Nat.reduceSub, and_self]

/-- For a file of at least 178 bytes whose derived `pixmap_size` covers
`file_size + 40` and whose final `u32` length sum does not wrap, the
forward transform output is literally: serialized header, then the bytes
after the first 178, then the saved first 178 bytes, then zero padding. -/
theorem bin_to_bmp_canonical (f : List ℕ) (od : Option ℕ)
    (h178 : total_header_size ≤ f.length)
    (hcap : f.length + 40 ≤ pixmapOf f.length)
    (hlt : pixmapOf f.length + BITMAP_HEADER_SIZE < 2 ^ 32) :
    bin_to_bmp f od =
      (Header.new f.length od).serialize ++
        (f.drop total_header_size ++
          (f.take total_header_size ++
            List.replicate (pixmapOf f.length - f.length - 40) 0)) := by
  have hth : total_header_size = 178 := rfl
  have hbh : BITMAP_HEADER_SIZE = 138 := rfl
  have hext : extendSmall f = f := by
    rw [extendSmall, if_neg (by omega)]
  have hdrop : (f ++ f.take total_header_size).drop total_header_size
      = f.drop total_header_size ++ f.take total_header_size := by
    rw [List.drop_append_eq_append_drop,
      show total_header_size - f.length = 0 from by omega, List.drop_zero]
  have hN : (pixmapOf f.length + BITMAP_HEADER_SIZE) % 2 ^ 32
      = pixmapOf f.length + BITMAP_HEADER_SIZE := Nat.mod_eq_of_lt hlt
  have hlen : ((Header.new f.length od).serialize ++
      (f.drop total_header_size ++ f.take total_header_size)).length
      = f.length + total_header_size := by
    simp only [List.length_append, Header.serialize_length, List.length_drop,
      List.length_take]
    omega
  simp only [bin_to_bmp, hext, Header.new_pixmap_size, hN, hdrop, resize]
  rw [List.take_of_length_le (by rw [hlen]; omega), hlen,
    show pixmapOf f.length + BITMAP_HEADER_SIZE - (f.length + total_header_size)
      = pixmapOf f.length - f.length - 40 from by rw [hth, hbh]; omega,
    List.append_assoc, List.append_assoc]

theorem pure_eq_ok {α : Type} (x : α) : (pure x : Except ErrorKind α) = Except.ok x := rfl

theorem BitmapV5Header.new_id (w h p : ℕ) : (BitmapV5Header.new w h p).id = BITMAP_ID := rfl

theorem BitmapV5Header.new_pixmap (w h p : ℕ) :
    (BitmapV5Header.new w h p).pixmap_size = p := rfl

theorem B2BHeader.new_padding (p fs : ℕ) (od : Option ℕ) :
    (B2BHeader.new p fs od).padding_size = p := rfl

theorem B2BHeader.new_orig (p fs : ℕ) (od : Option ℕ) :
    (B2BHeader.new p fs od).original_file_size = fs % 2 ^ 32 := rfl

theorem B2BHeader.new_sig (p fs : ℕ) (od : Option ℕ) :
    (B2BHeader.new p fs od).signature = B2B_SIGNATURE := rfl

/-- When the header deserializes and passes all three checks, and the
reverse seek position `len - 178 - padding_size` is the natural number
`n`, `bmp_to_bin` returns the relocation of the 178 bytes at offset `n`
to the front, truncated to `original_file_size`. -/
theorem bmp_to_bin_ok (l : List ℕ) (h : Header) (n : ℕ)
    (hd : Header.deserialize l = .ok h)
    (h1 : h.check_id = .ok ()) (h2 : h.check_padding_size = .ok ())
    (h3 : h.check_signature = .ok ())
    (hn : (l.length : ℤ) - (total_header_size : ℤ) - (h.padding_size : ℤ) = (n : ℤ)) :
    bmp_to_bin l = .ok (resize ((l.drop n).take total_header_size ++
      List.replicate (total_header_size - ((l.drop n).take total_header_size).length) 0 ++
      l.drop total_header_size) h.original_file_size) := by
  simp only [bmp_to_bin, hd, Bind.bind, Except.bind, h1, h2, h3, hn]
  rw [if_neg (by omega), Int.toNat_natCast, pure_eq_ok]

/-- General round trip: a file of at least 178 bytes whose derived
`pixmap_size` covers `file_size + 40` (no `f32` precision shortfall) and
whose final `u32` length sum does not wrap is restored exactly by the
reverse transform.  Together with the `b"hello"` failure this isolates
the round-trip failure to the short-file (zero-extension) path. -/
theorem round_trip_of_long (f : List ℕ) (od : Option ℕ)
    (h178 : total_header_size ≤ f.length)
    (hcap : f.length + 40 ≤ pixmapOf f.length)
    (hlt : pixmapOf f.length + BITMAP_HEADER_SIZE < 2 ^ 32) :
    bmp_to_bin (bin_to_bmp f od) = .ok f := by
  have hth : total_header_size = 178 := rfl
  have hbh : BITMAP_HEADER_SIZE = 138 := rfl
  have hcanon := bin_to_bmp_canonical f od h178 hcap hlt
  simp only [hth] at h178 hcanon
  simp only [hbh] at hlt
  have hP32 : pixmapOf f.length < 2 ^ 32 := pixmapOf_lt f.length
  have hfs32 : f.length % 2 ^ 32 = f.length := Nat.mod_eq_of_lt (by omega)
  rw [hcanon]
  obtain ⟨hid, hpix, hpad, horig, hsig⟩ :=
    read_fields_serialize (Header.new f.length od)
      (f.drop 178 ++ (f.take 178 ++
        List.replicate (pixmapOf f.length - f.length - 40) 0))
  generalize hL : ((Header.new f.length od).serialize ++
      (f.drop 178 ++ (f.take 178 ++
        List.replicate (pixmapOf f.length - f.length - 40) 0))) = L
  rw [hL] at hid hpix hpad horig hsig
  have hid' : (Header.read_fields L).bmp.id = BITMAP_ID := by
    rw [hid, Header.new_bmp, BitmapV5Header.new_id]
    decide
  have hpix' : (Header.read_fields L).bmp.pixmap_size = pixmapOf f.length := by
    rw [hpix, Header.new_bmp, BitmapV5Header.new_pixmap, Nat.mod_eq_of_lt hP32]
  have hpad' : (Header.read_fields L).b2b.padding_size =
      pixmapOf f.length - f.length - 40 := by
    rw [hpad, Header.new_b2b, B2BHeader.new_padding,
      Nat.mod_eq_of_lt (paddingOf_lt _), paddingOf_eq_of_no_underflow _ (by omega), hfs32]
  have horig' : (Header.read_fields L).b2b.original_file_size = f.length := by
    rw [horig, Header.new_b2b, B2BHeader.new_orig]
    omega
  have hsig' : (Header.read_fields L).b2b.signature = B2B_SIGNATURE := by
    rw [hsig, Header.new_b2b, B2BHeader.new_sig,
      Nat.mod_eq_of_lt (by norm_num [B2B_SIGNATURE])]
  have hLlen : L.length = pixmapOf f.length + 138 := by
    rw [← hL]
    simp only [List.length_append, Header.serialize_length, List.length_drop,
      List.length_take, List.length_replicate, hth]
    omega
  have hdes : Header.deserialize L = .ok (Header.read_fields L) := by
    rw [Header.deserialize, if_neg (by rw [hLlen, hth]; omega)]
  have hcid : (Header.read_fields L).check_id = .ok () := by
    rw [Header.check_id, hid']
    simp
  have hcpad : (Header.read_fields L).check_padding_size = .ok () := by
    rw [Header.check_padding_size, Header.padding_size, Header.pixmap_size, hpad', hpix',
      if_neg (by omega)]
  have hcsig : (Header.read_fields L).check_signature = .ok () := by
    rw [Header.check_signature, hsig']
    simp
  have hTlen : (f.take 178).length = 178 := by
    rw [List.length_take]
    omega
  have hdropfs : L.drop f.length = f.take 178 ++
      List.replicate (pixmapOf f.length - f.length - 40) 0 := by
    rw [← hL, ← List.append_assoc]
    exact List.drop_left' (by
      simp only [List.length_append, Header.serialize_length, List.length_drop, hth]
      omega)
  have hdrop178 : L.drop 178 = f.drop 178 ++ (f.take 178 ++
      List.replicate (pixmapOf f.length - f.length - 40) 0) := by
    rw [← hL]
    exact List.drop_left' (by rw [Header.serialize_length, hth])
  have htake : (f.take 178 ++
      List.replicate (pixmapOf f.length - f.length - 40) 0).take 178 = f.take 178 :=
    List.take_left' hTlen
  rw [bmp_to_bin_ok L (Header.read_fields L) f.length hdes hcid hcpad hcsig
    (by rw [hLlen, Header.padding_size, hpad', hth]; omega)]
  simp only [hth, Header.original_file_size, horig', hdropfs, htake, hTlen,
    Nat.sub_self, List.replicate_zero, List.append_nil, hdrop178]
  rw [resize, ← List.append_assoc, List.take_append_drop, List.take_left]
  have hz : f.length - (f ++ (f.take 178 ++
      List.replicate (pixmapOf f.length - f.length - 40) 0)).length = 0 := by
    simp only [List.length_append, List.length_take, List.length_replicate]
    omega
  rw [hz, List.replicate_zero, List.append_nil]

/-! ## Claim theorems -/

/-- C5: the compact optional-digest encoding satisfies: encoding absence
(`None`) yields the literal value `0`; encoding a present digest `d` sets
the top bit (bit 127); decoding recovers presence and the 127-bit payload:
`get (new None) = none` and `get (new (Some d)) = some (d mod 2^127)`
(the low 127 bits of `d`) for every 128-bit `d`. -/
theorem optional_digest_encoding (d : ℕ) (_hd : d < 2 ^ 128) :
    (CompactOptionalDigest.new none).val = 0 ∧
    (CompactOptionalDigest.new (some d)).val.testBit 127 = true ∧
    (CompactOptionalDigest.new none).get = none ∧
    (CompactOptionalDigest.new (some d)).get = some (d % 2 ^ 127) :=
  ⟨rfl, cod_new_some_testBit d, cod_get_new_none, cod_get_new_some d⟩

/-- Witness for C5 at `d = 3`. -/
theorem optional_digest_encoding_witness :
    (3 : ℕ) < 2 ^ 128 ∧
    ((CompactOptionalDigest.new none).val = 0 ∧
     (CompactOptionalDigest.new (some 3)).val.testBit 127 = true ∧
     (CompactOptionalDigest.new none).get = none ∧
     (CompactOptionalDigest.new (some 3)).get = some (3 % 2 ^ 127)) :=
  ⟨by norm_num, optional_digest_encoding 3 (by norm_num)⟩

/-- C6: header verification against a freshly computed digest: if the
stored optional digest is absent, the result is the distinct
"verification not possible" outcome `(false, true)`, not a failure; if
present with payload `p`, the result is `(p == digest mod 2^127, false)` —
a match exactly when the stored 127-bit payload equals the low 127 bits of
the fresh digest, both presence bits ignored; in all cases verification
returns a value and never panics or raises an error. -/
theorem verify_semantics (h : Header) (dig : ℕ) :
    (h.b2b.od.get = none → h.verify dig = some (false, true)) ∧
    (∀ p, h.b2b.od.get = some p →
      h.verify dig = some (p == dig % 2 ^ 127, false) ∧
      ((p == dig % 2 ^ 127) = true ↔ p = dig % 2 ^ 127)) ∧
    (h.verify dig).isSome = true := by
  refine ⟨fun hn => ?_, fun p hp => ⟨?_, beq_iff_eq⟩, ?_⟩
  · simp [Header.verify, hn]
  · simp only [Header.verify, CompactOptionalDigest.compare, hp, Option.map_some']
    rw [and_not128_eq_mod]
  · cases hg : h.b2b.od.get <;>
      simp [Header.verify, CompactOptionalDigest.compare, hg]

/-- Witness for C6 at the header of a 5-byte file with digest `3`, fresh
digest `3`. -/
theorem verify_semantics_witness :
    (Header.new 5 (some 3)).b2b.od.get = some 3 ∧
    ((Header.new 5 (some 3)).verify 3 = some ((3 : ℕ) == 3 % 2 ^ 127, false) ∧
     (((3 : ℕ) == 3 % 2 ^ 127) = true ↔ (3 : ℕ) = 3 % 2 ^ 127)) :=
  ⟨by decide, (verify_semantics (Header.new 5 (some 3)) 3).2.1 3 (by decide)⟩

/-- C9: `Header::verify` is total and never panics, for any header value
and digest: although `CompactOptionalDigest::compare` unconditionally
unwraps the decoded digest (modelled by its `Option` result), `verify`
only invokes it after establishing the digest is present, so the unwrap
is unreachable in the absent case and `verify` always returns a value. -/
theorem verify_never_panics (h : Header) (dig : ℕ) : (h.verify dig).isSome = true := by
  cases hg : h.b2b.od.get <;>
    simp [Header.verify, CompactOptionalDigest.compare, hg]

/-- C4: parsing-time validation runs exactly the three checks, in the
order container id, then padding, then signature, aborting on the first
failure with that check's distinct error kind; the sequence succeeds
exactly when all three conditions hold, and a failure of any check makes
the reverse transform abort with that same error before the header is
used. -/
theorem validation_checks (h : Header) :
    (Header.validate h = .ok () ↔
      (h.bmp.id = BITMAP_ID ∧ h.padding_size < h.pixmap_size ∧
       h.b2b.signature = B2B_SIGNATURE)) ∧
    (h.bmp.id ≠ BITMAP_ID → Header.validate h = .error .InvalidBitmapID) ∧
    (h.bmp.id = BITMAP_ID → h.pixmap_size ≤ h.padding_size →
      Header.validate h = .error .BadPaddingSize) ∧
    (h.bmp.id = BITMAP_ID → h.padding_size < h.pixmap_size →
      h.b2b.signature ≠ B2B_SIGNATURE →
      Header.validate h = .error .InvalidB2BSignature) ∧
    (∀ l e, Header.deserialize l = .ok h → Header.validate h = .error e →
      bmp_to_bin l = .error e) := by
  have main :
      (Header.validate h = .ok () ↔
        (h.bmp.id = BITMAP_ID ∧ h.padding_size < h.pixmap_size ∧
         h.b2b.signature = B2B_SIGNATURE)) ∧
      (h.bmp.id ≠ BITMAP_ID → Header.validate h = .error .InvalidBitmapID) ∧
      (h.bmp.id = BITMAP_ID → h.pixmap_size ≤ h.padding_size →
        Header.validate h = .error .BadPaddingSize) ∧
      (h.bmp.id = BITMAP_ID → h.padding_size < h.pixmap_size →
        h.b2b.signature ≠ B2B_SIGNATURE →
        Header.validate h = .error .InvalidB2BSignature) := by
    by_cases h1 : h.bmp.id = BITMAP_ID <;>
      by_cases h2 : h.pixmap_size ≤ h.padding_size <;>
        by_cases h3 : h.b2b.signature = B2B_SIGNATURE <;>
          simp [Header.validate, Header.check_id, Header.check_padding_size,
            Header.check_signature, h1, h2, h3, ge_iff_le, not_le, Bind.bind,
            Except.bind] <;> omega
  exact ⟨main.1, main.2.1, main.2.2.1, main.2.2.2,
    fun l e hd hv => bmp_to_bin_check_failure l h e hd hv⟩

/-- Witness for C4 at the header of a 5-byte file: all three conditions
hold and validation succeeds. -/
theorem validation_checks_witness :
    (Header.new 5 none).bmp.id = BITMAP_ID ∧
    (Header.new 5 none).padding_size < (Header.new 5 none).pixmap_size ∧
    (Header.new 5 none).b2b.signature = B2B_SIGNATURE ∧
    Header.validate (Header.new 5 none) = .ok () :=
  ⟨by decide, by decide, by decide,
   (validation_checks (Header.new 5 none)).1.mpr ⟨by decide, by decide, by decide⟩⟩

/-- C2 counterexample: at `file_size = 67108825` (= 2^26 − 39, about 64
MiB, far below the 4 GiB cap) the f32 rounding of `file_size` loses the
low bits, the derived pixel grid is 4096 × 4096 with
`pixmap_size = 2^26 = 67108864 < file_size + 40`, and the wrapping
padding subtraction yields `2^32 − 1 ≥ pixmap_size` — so both
`padding_size < pixel_data_size` and `pixel_data_size ≥ file_size + 40`
fail, refuting the claim as stated. -/
theorem geometry_invariant_cex :
    pixmapOf 67108825 < 67108825 + 40 ∧
    ¬ paddingOf 67108825 < pixmapOf 67108825 := by decide

/-- C2 (amended): for every `file_size` below `2^32` for which the
float-derived `width * height * 4` neither overflows `u32` nor falls short
of `file_size + 40` (the precision-loss edge case of §9, e.g.
`file_size = 67108825`, is excluded), the derived tuple satisfies
`pixel_data_size = width * height * 4`,
`padding_size < pixel_data_size`, and
`pixel_data_size ≥ file_size + 40`. -/
theorem geometry_invariant_amended (fs w h pix pad : ℕ)
    (hg : get_properties fs = (w, h, pix, pad)) (h32 : fs < 2 ^ 32)
    (hnof : w * h * 4 < 2 ^ 32) (hcap : fs + 40 ≤ w * h * 4) :
    pix = w * h * 4 ∧ pad < pix ∧ fs + 40 ≤ pix := by
  rw [get_properties_eta] at hg
  simp only [Prod.mk.injEq] at hg
  obtain ⟨ew, eh, ep, ed⟩ := hg
  subst ew eh ep ed
  have e1 : pixmapOf fs = widthOf fs * heightOf fs * 4 := by
    rw [pixmapOf_def, show BYTES_PER_PIXEL = 4 from rfl, Nat.mod_eq_of_lt hnof]
  have hcap' : fs + 40 ≤ pixmapOf fs := by rw [e1]; exact hcap
  have hlt := pixmapOf_lt fs
  have e2 : paddingOf fs = pixmapOf fs - fs - 40 := by
    rw [paddingOf_def, show B2B_HEADER_SIZE = 40 from rfl, Nat.mod_eq_of_lt h32,
      wsub_of_le _ _ (by omega) hlt, wsub_of_le _ _ (by omega) (by omega)]
  exact ⟨e1, by omega, hcap'⟩

/-- Witness for the amended C2 at `file_size = 5`. -/
theorem geometry_invariant_amended_witness :
    get_properties 5 = (4, 3, 48, 3) ∧ (5 : ℕ) < 2 ^ 32 ∧
    4 * 3 * 4 < 2 ^ 32 ∧ (5 : ℕ) + 40 ≤ 4 * 3 * 4 ∧
    ((48 : ℕ) = 4 * 3 * 4 ∧ (3 : ℕ) < 48 ∧ (5 : ℕ) + 40 ≤ 48) :=
  ⟨by decide, by decide, by decide, by decide,
   geometry_invariant_amended 5 4 3 48 3 (by decide) (by decide) (by decide)
     (by decide)⟩

/-- C3 counterexample: at `file_size = 268435417` (= 2^28 − 39) the f32
geometry yields `pixmap_size = 2^28 < file_size + 40`, so the padding
subtraction `pixmap_size - file_size as u32 - 40` underflows: it wraps to
`2^32 − 1` in a release build (and would panic in a debug build),
refuting "the subtraction never underflows". -/
theorem padding_underflow_cex :
    pixmapOf 268435417 < 268435417 % 2 ^ 32 + 40 ∧
    Header.padding_size (Header.new 268435417 none) = 2 ^ 32 - 1 := by decide

/-- C3 (amended): `Header::new` is a total function — for every
`file_size` and `optional_digest` it deterministically builds both
sub-records from the geometry components and the fixed constants — and
the padding subtraction does not underflow exactly on those inputs whose
derived `pixmap_size` is at least `(file_size mod 2^32) + 40`; there the
stored `padding_size` satisfies the exact (non-wrapping) equation
`padding_size + file_size mod 2^32 + 40 = pixmap_size`.  (At other
inputs, e.g. `file_size = 268435417`, the subtraction wraps modulo
`2^32`; a debug build would panic.) -/
theorem header_new_no_underflow (fs : ℕ) (od : Option ℕ)
    (hno : fs % 2 ^ 32 + 40 ≤ pixmapOf fs) :
    (Header.new fs od).bmp = BitmapV5Header.new (widthOf fs) (heightOf fs) (pixmapOf fs) ∧
    (Header.new fs od).b2b = B2BHeader.new (paddingOf fs) fs od ∧
    Header.padding_size (Header.new fs od) + (fs % 2 ^ 32 + 40) = pixmapOf fs := by
  refine ⟨Header.new_bmp fs od, Header.new_b2b fs od, ?_⟩
  rw [Header.new_padding_size, paddingOf_def, show B2B_HEADER_SIZE = 40 from rfl]
  have hlt := pixmapOf_lt fs
  rw [wsub_of_le _ _ (by omega) hlt, wsub_of_le _ _ (by omega) (by omega)]
  omega

/-- Witness for the amended C3 at `file_size = 5`. -/
theorem header_new_no_underflow_witness :
    5 % 2 ^ 32 + 40 ≤ pixmapOf 5 ∧
    ((Header.new 5 none).bmp = BitmapV5Header.new (widthOf 5) (heightOf 5) (pixmapOf 5) ∧
     (Header.new 5 none).b2b = B2BHeader.new (paddingOf 5) 5 none ∧
     Header.padding_size (Header.new 5 none) + (5 % 2 ^ 32 + 40) = pixmapOf 5) :=
  ⟨by decide, header_new_no_underflow 5 none (by decide)⟩

/-- C10: for an input of `2^32` bytes or more, header construction does
not fail or reject the input; the `original_file_size` field silently
stores `file_size mod 2^32` (the truncating `as u32` cast), which differs
from the true size — no 4 GiB cap is enforced at construction time. -/
theorem original_file_size_truncation (fs : ℕ) (od : Option ℕ) (hfs : 2 ^ 32 ≤ fs) :
    Header.original_file_size (Header.new fs od) = fs % 2 ^ 32 ∧
    Header.original_file_size (Header.new fs od) ≠ fs := by
  refine ⟨Header.new_original_file_size fs od, ?_⟩
  rw [Header.new_original_file_size]
  have := Nat.mod_lt fs (show 0 < 2 ^ 32 by norm_num)
  omega

/-- Witness for C10 at `file_size = 2^32 + 5`. -/
theorem original_file_size_truncation_witness :
    2 ^ 32 ≤ 2 ^ 32 + 5 ∧
    (Header.original_file_size (Header.new (2 ^ 32 + 5) none) = (2 ^ 32 + 5) % 2 ^ 32 ∧
     Header.original_file_size (Header.new (2 ^ 32 + 5) none) ≠ 2 ^ 32 + 5) :=
  ⟨by norm_num, original_file_size_truncation (2 ^ 32 + 5) none (by norm_num)⟩

theorem bin_to_bmp_length_exact (f : List ℕ) (od : Option ℕ)
    (hlt : pixmapOf f.length + BITMAP_HEADER_SIZE < 2 ^ 32) :
    (bin_to_bmp f od).length = pixmapOf f.length + BITMAP_HEADER_SIZE := by
  rw [bin_to_bmp_length, Nat.mod_eq_of_lt hlt]

/-- C1 (code bug): evaluating the transforms at the 5-byte file
`b"hello"` with the digest disabled, the reverse transform returns the
five bytes `[0, 0, 0, 0, 0]` (bytes 5..10 of the embedded header), not
`b"hello"`: the reverse seek `End(-total_header_size - padding_size)`
lands at offset 5 because the stored `padding_size` (3) does not account
for the zero-extension of the short file to 178 bytes, so the round trip
fails for files shorter than 178 bytes. -/
theorem round_trip_fails_hello :
    bmp_to_bin (bin_to_bmp hello none) = .ok [0, 0, 0, 0, 0] ∧
    ([0, 0, 0, 0, 0] : List ℕ) ≠ hello := by
  constructor
  · decide
  · decide

/-- C7 (code bug): at `f = b"hello"`, `digest = false`, the geometry is
`width = 4, height = 3, pixel_data_size = 48, padding_size = 3` and the
forward transform produces exactly `pixel_data_size + 138 = 186` bytes as
the claim states, but extracting that output does not return `b"hello"`
(it returns `[0, 0, 0, 0, 0]`, bytes 5..10 of the embedded header). -/
theorem hello_scenario_eval :
    get_properties 5 = (4, 3, 48, 3) ∧
    (bin_to_bmp hello none).length = pixmapOf 5 + 138 ∧
    (bin_to_bmp hello none).length = 186 ∧
    bmp_to_bin (bin_to_bmp hello none) ≠ .ok hello := by
  refine ⟨by decide, by decide, by decide, ?_⟩
  intro hcontra
  have e : bmp_to_bin (bin_to_bmp hello none) = .ok [0, 0, 0, 0, 0] := by decide
  rw [e] at hcontra
  injection hcontra with h'
  exact absurd h' (by decide)

end B2B
